import Mathlib

/-!
Shallow embedding of the real-time chat relay core of the Beachdo marketplace
server (the WebSocket section of `server/routes.ts`, the chat/message storage
methods of `DatabaseStorage`, the `chats`/`messages` table shapes of
`shared/schema.ts`, and the pure `verifyRefreshToken` credential check).

The embedding follows the source:
  * `connections : Map<string, ChatConnection>` becomes an association list
    `registry : List (UserId × ConnId)` with JavaScript `Map` set/get/delete
    semantics (`mapSet`, `mapGet`, `mapDelete`).
  * The per-connection handler-local variable `let userId: string | null`
    becomes `bound : List (ConnId × UserId)` (one entry per connection that
    has successfully authenticated, overwritten on re-authentication).
  * The database is an explicit `DbState` threaded through the storage
    methods; SQL `now()` / JavaScript `new Date()` are modelled by a `now`
    counter, and the wall-clock time that may elapse between the message
    insert (`createMessage`, whose `createdAt` is the column default `now()`)
    and the chat update (`updateChatLastMessage`, which stamps `new Date()`)
    is an environment parameter `tick`.
  * Storage-collaborator failures (a rejected insert/update promise, which
    the handler's `try`/`catch` turns into an `error` frame) are modelled by
    environment flags `persistFails` / `touchFails`.
  * `verifyRefreshToken` is `jwt.verify` against a fixed secret: a pure
    function of the token alone, taken as a parameter `verify`.
  * Each processed incoming frame yields a list of trace events
    (`persisted`, `touched`, `sent`) recording, in program order, the
    storage writes and outgoing frames the handler performed.
-/

abbrev UserId := String
abbrev ChatId := String
abbrev ConnId := Nat

/-- Row shape of the `chats` table: two participants, a listing context,
and a nullable `lastMessageAt` timestamp. -/
structure Chat where
  id : ChatId
  buyerId : UserId
  sellerId : UserId
  listingId : String
  lastMessageAt : Option Nat
  createdAt : Nat
deriving DecidableEq, Repr

/-- Row shape of the `messages` table: belongs to one chat, has a sender,
free-text body (column `message`), a read flag defaulting to false, and a
`createdAt` defaulting to `now()`. -/
structure Message where
  id : Nat
  chatId : ChatId
  senderId : UserId
  message : String
  isRead : Bool
  createdAt : Nat
deriving DecidableEq, Repr

/-- Database state visible to the chat core.  `authTokens` (the refresh-token
store written by `generateTokens`) and `users` are carried so that theorems
can vary them: the WebSocket auth path never reads either. -/
structure DbState where
  chats : List Chat
  messages : List Message
  nextMessageId : Nat
  now : Nat
  authTokens : List (UserId × String)
  users : List UserId
deriving DecidableEq, Repr

/-- Payload of a verified JWT: `{ userId, role }`. -/
structure TokenPayload where
  userId : UserId
  role : String
deriving DecidableEq, Repr

/-- JavaScript `Map.get`: the value stored under `k`, if any. -/
def mapGet {α β : Type} [DecidableEq α] : List (α × β) → α → Option β
  | [], _ => none
  | p :: rest, k => if p.1 = k then some p.2 else mapGet rest k

/-- JavaScript `Map.set`: overwrite the entry under `k` in place if present
(a `Map` holds at most one entry per key), otherwise append it. -/
def mapSet {α β : Type} [DecidableEq α] : List (α × β) → α → β → List (α × β)
  | [], k, v => [(k, v)]
  | p :: rest, k, v =>
    if p.1 = k then (k, v) :: rest else p :: mapSet rest k v

/-- JavaScript `Map.delete`: drop every entry under `k`. -/
def mapDelete {α β : Type} [DecidableEq α] (m : List (α × β)) (k : α) :
    List (α × β) :=
  m.filter (fun p => p.1 ≠ k)

/-- DatabaseStorage.getChat: `select … from chats where eq(chats.id, id)`,
returning the first row if any. -/
def getChat (db : DbState) (id : ChatId) : Option Chat :=
  db.chats.find? (fun ch => ch.id = id)

/-- DatabaseStorage.createMessage: insert a new row into `messages` with
`isRead` defaulting to `false` and `createdAt` defaulting to the current
time, returning the inserted row. -/
def createMessage (db : DbState) (chatId : ChatId) (senderId : UserId)
    (content : String) : Message × DbState :=
  let m : Message :=
    { id := db.nextMessageId, chatId := chatId, senderId := senderId,
      message := content, isRead := false, createdAt := db.now }
  (m, { db with messages := db.messages ++ [m],
                nextMessageId := db.nextMessageId + 1 })

/-- DatabaseStorage.updateChatLastMessage: `update chats set lastMessageAt =
new Date() where eq(chats.id, chatId)` — the stamp is the time of THIS call,
not the timestamp of any message row. -/
def updateChatLastMessage (db : DbState) (chatId : ChatId) : DbState :=
  { db with chats := db.chats.map (fun ch =>
      if ch.id = chatId then { ch with lastMessageAt := some db.now } else ch) }

/-- Incoming WebSocket text frame, as seen after `JSON.parse` in the
handler's dispatch: unparseable JSON, an `auth` frame (whose `token` field
may be absent), a `chat_message` frame, or any other `type` tag. -/
inductive RawFrame
  | invalid : RawFrame
  | auth (token : Option String) : RawFrame
  | chatMessage (chatId : ChatId) (content : String) : RawFrame
  | other (tag : String) : RawFrame
deriving DecidableEq, Repr

/-- Outgoing server-to-client frames of the wire protocol. -/
inductive OutFrame
  | authSuccess : OutFrame
  | authFailed : OutFrame
  | newMessage (chatId : ChatId) (m : Message) : OutFrame
  | messageSent (m : Message) : OutFrame
  | error (msg : String) : OutFrame
deriving DecidableEq, Repr

/-- Observable events of one handler invocation, in program order:
a message row inserted, a chat's `lastMessageAt` stamped, a frame pushed. -/
inductive TraceEv
  | persisted (m : Message) : TraceEv
  | touched (chatId : ChatId) (t : Nat) : TraceEv
  | sent (c : ConnId) (f : OutFrame) : TraceEv
deriving DecidableEq, Repr

/-- Environment of one frame-processing step: whether the insert or the
chat-update promise rejects, and how much wall-clock time elapses between
the insert and the update. -/
structure FrameEnv where
  persistFails : Bool
  touchFails : Bool
  tick : Nat
deriving DecidableEq, Repr

/-- Whole-system state: the database, the `connections` map, the
handler-local `userId` of each connection, and the set of closed
connections. -/
structure SysState where
  db : DbState
  registry : List (UserId × ConnId)
  bound : List (ConnId × UserId)
  closed : List ConnId
deriving DecidableEq, Repr

/-- Process one incoming data event on connection `c`, exactly following the
`ws.on('message', …)` handler: `try { parse; if auth …; if chat_message &&
userId … } catch { send error }`.  A failed auth sends the failed status and
closes the socket, which fires the `close` handler (`connections.delete` of
the last bound identity).  Frames on an already-closed connection are not
delivered. -/
def step (verify : Option String → Option TokenPayload) (s : SysState)
    (c : ConnId) (f : RawFrame) (env : FrameEnv) : SysState × List TraceEv :=
  if s.closed.contains c then (s, [])
  else
    match f with
    | .invalid => (s, [.sent c (.error "Invalid message format")])
    | .auth token =>
      match verify token with
      | some payload =>
        ({ s with bound := mapSet s.bound c payload.userId,
                  registry := mapSet s.registry payload.userId c },
         [.sent c .authSuccess])
      | none =>
        ({ s with closed := c :: s.closed,
                  registry :=
                    match mapGet s.bound c with
                    | some u => mapDelete s.registry u
                    | none => s.registry },
         [.sent c .authFailed])
    | .chatMessage chatId content =>
      match mapGet s.bound c with
      | none => (s, [])
      | some uid =>
        match getChat s.db chatId with
        | none => (s, [])
        | some chat =>
          if chat.buyerId = uid ∨ chat.sellerId = uid then
            if env.persistFails then
              (s, [.sent c (.error "Invalid message format")])
            else
              let md := createMessage s.db chatId uid content
              let db2 := { md.2 with now := md.2.now + env.tick }
              if env.touchFails then
                ({ s with db := db2 },
                 [.persisted md.1, .sent c (.error "Invalid message format")])
              else
                let db3 := updateChatLastMessage db2 chatId
                let recvId :=
                  if chat.buyerId = uid then chat.sellerId else chat.buyerId
                let deliver :=
                  match mapGet s.registry recvId with
                  | some oc =>
                    if s.closed.contains oc then []
                    else [TraceEv.sent oc (.newMessage chatId md.1)]
                  | none => []
                ({ s with db := db3 },
                 [.persisted md.1, .touched chatId db2.now] ++ deliver ++
                   [.sent c (.messageSent md.1)])
          else (s, [])
    | .other _ => (s, [])

/-- The `ws.on('close', …)` handler: mark the connection closed and, if it
had ever authenticated, delete the `connections` entry keyed by that
identity — unconditionally, whatever that entry now points at. -/
def closeConn (s : SysState) (c : ConnId) : SysState :=
  if s.closed.contains c then s
  else
    { s with closed := c :: s.closed,
             registry :=
               match mapGet s.bound c with
               | some u => mapDelete s.registry u
               | none => s.registry }

/-- External events driving the system: a text frame arriving on a
connection, or a connection closing. -/
inductive Event
  | msg (c : ConnId) (f : RawFrame) (env : FrameEnv) : Event
  | connClose (c : ConnId) : Event
deriving DecidableEq, Repr

/-- Run a sequence of events from a state, concatenating the traces. -/
def run (verify : Option String → Option TokenPayload) (s : SysState) :
    List Event → SysState × List TraceEv
  | [] => (s, [])
  | e :: rest =>
    let r1 := match e with
      | .msg c f env => step verify s c f env
      | .connClose c => (closeConn s c, [])
    let r2 := run verify r1.1 rest
    (r2.1, r1.2 ++ r2.2)

/-- Concrete token-verification collaborator for concrete runs: a pure map
from token text to payload, like `jwt.verify` under a fixed secret. -/
def demoVerify : Option String → Option TokenPayload
  | some "tokU" => some ⟨"U", "buyer"⟩
  | some "tokV" => some ⟨"V", "seller"⟩
  | some "tokA" => some ⟨"A", "buyer"⟩
  | some "tokB" => some ⟨"B", "seller"⟩
  | _ => none

/-- A conversation between buyer `A` and seller `B`. -/
def chatAB : Chat :=
  { id := "chat-1", buyerId := "A", sellerId := "B", listingId := "listing-1",
    lastMessageAt := none, createdAt := 0 }

/-- A database holding just `chatAB`, clock at 10, empty token store and no
user records. -/
def dbAB : DbState :=
  { chats := [chatAB], messages := [], nextMessageId := 0, now := 10,
    authTokens := [], users := [] }

/-- Benign per-frame environment: no storage failure, no time elapsing. -/
def env0 : FrameEnv := { persistFails := false, touchFails := false, tick := 0 }

/-- Environment in which one clock unit elapses between the message insert
and the `lastMessageAt` update. -/
def envTick1 : FrameEnv :=
  { persistFails := false, touchFails := false, tick := 1 }

/-- State in which connection 0 has authenticated as `A` and no one else is
connected. -/
def sAuthedA : SysState :=
  { db := dbAB, registry := [("A", 0)], bound := [(0, "A")], closed := [] }

/-- Completely fresh state: one chat in the database, nobody connected. -/
def sFresh : SysState :=
  { db := dbAB, registry := [], bound := [], closed := [] }

/-- State in which connection 0 has authenticated as `C`, who is NOT a
participant of `chatAB`. -/
def sAuthedC : SysState :=
  { db := dbAB, registry := [("C", 0)], bound := [(0, "C")], closed := [] }

/-- State in which user `U` is bound to connection 1. -/
def sU1 : SysState :=
  { db := dbAB, registry := [("U", 1)], bound := [(1, "U")], closed := [] }

/-- State reached from `sFresh` when the same real socket (connection 1)
authenticates first as `U`, then as `V`, and then closes. -/
def sC5 : SysState :=
  (run demoVerify sFresh
    [.msg 1 (.auth (some "tokU")) env0,
     .msg 1 (.auth (some "tokV")) env0,
     .connClose 1]).1

/-- State reached from `sFresh` when user `U` authenticates on connection 1
and then again on connection 2 (second device). -/
def sC9 : SysState :=
  (run demoVerify sFresh
    [.msg 1 (.auth (some "tokU")) env0,
     .msg 2 (.auth (some "tokU")) env0]).1

/-- The message row produced by relaying "hello" from `A` in `sAuthedA`. -/
def msgHello : Message :=
  { id := 0, chatId := "chat-1", senderId := "A", message := "hello",
    isRead := false, createdAt := 10 }

/-- Does an outgoing frame forward a chat message (a `new_message` push to
the recipient or a `message_sent` confirmation to the sender)? -/
def isPush : OutFrame → Bool
  | .newMessage _ _ => true
  | .messageSent _ => true
  | _ => false

/-- Keys of an association list are pairwise distinct (always true of a real
JavaScript `Map`). -/
abbrev keysNodup {α β : Type} (m : List (α × β)) : Prop :=
  (m.map Prod.fst).Nodup

example :
    (step demoVerify sAuthedA 0 (.chatMessage "chat-1" "hello") env0).2 =
      [.persisted msgHello, .touched "chat-1" 10,
       .sent 0 (.messageSent msgHello)] := by
  decide

example :
    (getChat (step demoVerify sAuthedA 0
        (.chatMessage "chat-1" "hello") envTick1).1.db "chat-1").map
      Chat.lastMessageAt = some (some 11) := by
  decide

lemma mapGet_mapSet_self {α β : Type} [DecidableEq α]
    (m : List (α × β)) (k : α) (v : β) :
    mapGet (mapSet m k v) k = some v := by
  induction m with
  | nil => simp [mapSet, mapGet]
  | cons p rest ih =>
    by_cases hp : p.1 = k
    · simp [mapSet, mapGet, hp]
    · simp [mapSet, mapGet, hp, ih]

lemma mem_keys_mapSet {α β : Type} [DecidableEq α]
    (m : List (α × β)) (k a : α) (v : β)
    (h : a ∈ (mapSet m k v).map Prod.fst) :
    a = k ∨ a ∈ m.map Prod.fst := by
  induction m with
  | nil =>
    simp only [mapSet, List.map_cons, List.map_nil, List.mem_singleton] at h
    exact Or.inl h
  | cons p rest ih =>
    by_cases hp : p.1 = k
    · simp only [mapSet, if_pos hp, List.map_cons, List.mem_cons] at h
      rcases h with h | h
      · exact Or.inl h
      · exact Or.inr (by simp only [List.map_cons, List.mem_cons]; exact Or.inr h)
    · simp only [mapSet, if_neg hp, List.map_cons, List.mem_cons] at h
      rcases h with h | h
      · exact Or.inr (by simp only [List.map_cons, List.mem_cons]; exact Or.inl h)
      · rcases ih h with h' | h'
        · exact Or.inl h'
        · exact Or.inr (by
            simp only [List.map_cons, List.mem_cons]; exact Or.inr h')

lemma keysNodup_mapSet {α β : Type} [DecidableEq α]
    (m : List (α × β)) (k : α) (v : β) (h : keysNodup m) :
    keysNodup (mapSet m k v) := by
  induction m with
  | nil => simp [keysNodup, mapSet]
  | cons p rest ih =>
    unfold keysNodup at h
    simp only [List.map_cons, List.nodup_cons] at h
    by_cases hp : p.1 = k
    · unfold keysNodup
      simp only [mapSet, if_pos hp, List.map_cons, List.nodup_cons]
      exact ⟨hp ▸ h.1, h.2⟩
    · unfold keysNodup
      simp only [mapSet, if_neg hp, List.map_cons, List.nodup_cons]
      refine ⟨fun hmem => ?_, ih h.2⟩
      rcases mem_keys_mapSet rest k p.1 v hmem with h' | h'
      · exact hp h'
      · exact h.1 h'

lemma filter_mapSet_of_nodup {α β : Type} [DecidableEq α]
    (m : List (α × β)) (k : α) (v : β) (h : keysNodup m) :
    (mapSet m k v).filter (fun q => q.1 = k) = [(k, v)] := by
  induction m with
  | nil => simp [mapSet]
  | cons p rest ih =>
    unfold keysNodup at h
    simp only [List.map_cons, List.nodup_cons] at h
    by_cases hp : p.1 = k
    · simp only [mapSet, if_pos hp, List.filter_cons, decide_eq_true_eq]
      have hrest : rest.filter (fun q => q.1 = k) = [] := by
        apply List.filter_eq_nil_iff.mpr
        intro q hq
        simp only [decide_eq_true_eq]
        intro hqk
        have hmem : q.1 ∈ rest.map Prod.fst := List.mem_map_of_mem Prod.fst hq
        rw [hqk, ← hp] at hmem
        exact h.1 hmem
      simp [hrest]
    · simp only [mapSet, if_neg hp, List.filter_cons]
      simp only [decide_eq_true_eq, hp, if_false]
      exact ih h.2

lemma mapGet_mapDelete_self {α β : Type} [DecidableEq α]
    (m : List (α × β)) (k : α) :
    mapGet (mapDelete m k) k = none := by
  induction m with
  | nil => simp [mapDelete, mapGet]
  | cons p rest ih =>
    by_cases hp : p.1 = k
    · simpa [mapDelete, hp] using ih
    · simpa [mapDelete, mapGet, hp] using ih

lemma find?_update_lastMessageAt (l : List Chat) (cid : ChatId) (t : Nat)
    (ch : Chat) (h : l.find? (fun x => x.id = cid) = some ch) :
    (l.map (fun x =>
        if x.id = cid then { x with lastMessageAt := some t } else x)).find?
      (fun x => x.id = cid) = some { ch with lastMessageAt := some t } := by
  induction l with
  | nil => simp at h
  | cons a rest ih =>
    by_cases ha : a.id = cid
    · rw [List.find?_cons_of_pos _ (by simpa using ha)] at h
      injection h with h
      subst h
      simp only [List.map_cons, if_pos ha]
      rw [List.find?_cons_of_pos _ (by simpa using ha)]
    · rw [List.find?_cons_of_neg _ (by simpa using ha)] at h
      simp only [List.map_cons, if_neg ha]
      rw [List.find?_cons_of_neg _ (by simpa using ha)]
      exact ih h

lemma getChat_updateChatLastMessage (db : DbState) (cid : ChatId) (ch : Chat)
    (h : getChat db cid = some ch) :
    getChat (updateChatLastMessage db cid) cid =
      some { ch with lastMessageAt := some db.now } := by
  unfold getChat updateChatLastMessage at *
  exact find?_update_lastMessageAt db.chats cid db.now ch h

/-- C9: when a connection whose handler last authenticated as user `u`
closes, the close handler deletes the registry entry keyed by `u`
unconditionally — even if that entry was since replaced and now points at a
different, still-open connection — so `lookup u` subsequently finds no
connection. -/
theorem C9_close_deletes_by_identity (s : SysState) (c : ConnId) (u : UserId)
    (hopen : s.closed.contains c = false)
    (hbound : mapGet s.bound c = some u) :
    mapGet (closeConn s c).registry u = none ∧
    (closeConn s c).closed = c :: s.closed := by
  unfold closeConn
  rw [hopen]
  simp only [Bool.false_eq_true, if_false, hbound]
  exact ⟨mapGet_mapDelete_self s.registry u, trivial⟩

theorem C9_close_deletes_by_identity_witness :
    mapGet sC9.registry "U" = some 2 ∧ sC9.closed.contains 2 = false ∧
    mapGet (closeConn sC9 1).registry "U" = none ∧
    (closeConn sC9 1).closed = 1 :: sC9.closed :=
  ⟨by decide, by decide,
   (C9_close_deletes_by_identity sC9 1 "U" (by decide) (by decide)).1,
   (C9_close_deletes_by_identity sC9 1 "U" (by decide) (by decide)).2⟩

/-- C10: the WebSocket auth decision is a function of the presented token
alone (via the pure `verifyRefreshToken` collaborator): for any two database
states — in particular any contents of the `authTokens` store and the user
records — the same token yields the same emitted frames and the same
resulting registry/bound/closed state, and the database itself is never
touched; concretely, a token that verifies still authenticates and is bound
when the token store and user table are empty. -/
theorem C10_auth_ignores_database
    (verify : Option String → Option TokenPayload)
    (db1 db2 : DbState) (reg : List (UserId × ConnId))
    (bnd : List (ConnId × UserId)) (cls : List ConnId)
    (c : ConnId) (tok : Option String) (env1 env2 : FrameEnv) :
    ((step verify ⟨db1, reg, bnd, cls⟩ c (.auth tok) env1).2 =
       (step verify ⟨db2, reg, bnd, cls⟩ c (.auth tok) env2).2 ∧
     (step verify ⟨db1, reg, bnd, cls⟩ c (.auth tok) env1).1.registry =
       (step verify ⟨db2, reg, bnd, cls⟩ c (.auth tok) env2).1.registry ∧
     (step verify ⟨db1, reg, bnd, cls⟩ c (.auth tok) env1).1.bound =
       (step verify ⟨db2, reg, bnd, cls⟩ c (.auth tok) env2).1.bound ∧
     (step verify ⟨db1, reg, bnd, cls⟩ c (.auth tok) env1).1.closed =
       (step verify ⟨db2, reg, bnd, cls⟩ c (.auth tok) env2).1.closed ∧
     (step verify ⟨db1, reg, bnd, cls⟩ c (.auth tok) env1).1.db = db1) ∧
    ((step demoVerify ⟨dbAB, [], [], []⟩ 0 (.auth (some "tokU")) env0).2 =
       [.sent 0 .authSuccess] ∧
     mapGet (step demoVerify ⟨dbAB, [], [], []⟩ 0
       (.auth (some "tokU")) env0).1.registry "U" = some 0) := by
  constructor
  · unfold step
    rcases h : verify tok with _ | payload <;>
      by_cases hc : c ∈ cls <;>
        simp [hc, h]
  · exact ⟨by decide, by decide⟩

/-- C4: a `chat_message` frame arriving on a connection that has never
successfully authenticated (handler-local `userId` still null) is silently
ignored: nothing is persisted, no state changes, and — contrary to the
claim's expectation of an error frame — no frame at all is sent back. -/
theorem C4_preauth_chat_silently_ignored
    (verify : Option String → Option TokenPayload) (s : SysState)
    (c : ConnId) (chatId : ChatId) (content : String) (env : FrameEnv)
    (hopen : s.closed.contains c = false)
    (hb : mapGet s.bound c = none) :
    step verify s c (.chatMessage chatId content) env = (s, []) := by
  unfold step
  rw [hopen]
  simp only [Bool.false_eq_true, if_false, hb]

theorem C4_preauth_chat_silently_ignored_witness :
    step demoVerify sFresh 0 (.chatMessage "chat-1" "hello") env0 =
      (sFresh, []) :=
  C4_preauth_chat_silently_ignored demoVerify sFresh 0 "chat-1" "hello" env0
    (by decide) (by decide)

/-- C4 counterexample: in `sFresh` (no auth has happened on connection 0), a
`chat_message` frame produces NO outgoing frame — the claim that an error
frame is returned to the connection is false — though indeed nothing is
persisted. -/
theorem C4_counterexample :
    (step demoVerify sFresh 0 (.chatMessage "chat-1" "hello") env0).2 = [] ∧
    (step demoVerify sFresh 0 (.chatMessage "chat-1" "hello") env0).1 =
      sFresh ∧
    ¬ (∃ e, TraceEv.sent 0 (.error e) ∈
        (step demoVerify sFresh 0 (.chatMessage "chat-1" "hello") env0).2) := by
  refine ⟨by decide, by decide, ?_⟩
  rintro ⟨e, hmem⟩
  rw [(by decide :
    (step demoVerify sFresh 0 (.chatMessage "chat-1" "hello") env0).2 =
      [])] at hmem
  exact List.not_mem_nil _ hmem

/-- C7: the handler is a total function (it never crashes): an unparseable
frame is answered with an `error` frame and the connection stays open with
no other state change; but a frame with an unrecognized `type` tag is
silently ignored (no frame sent — the claim expected an `error` frame), and
an `auth` frame with a missing token is answered with the failed auth status
and the connection is closed rather than kept open. -/
theorem C7_malformed_frame_handling
    (verify : Option String → Option TokenPayload) (s : SysState)
    (c : ConnId) (env : FrameEnv) (tag : String)
    (hopen : s.closed.contains c = false) :
    step verify s c .invalid env =
      (s, [.sent c (.error "Invalid message format")]) ∧
    step verify s c (.other tag) env = (s, []) ∧
    (verify none = none →
      (step verify s c (.auth none) env).2 = [.sent c .authFailed] ∧
      (step verify s c (.auth none) env).1.closed = c :: s.closed ∧
      (step verify s c (.auth none) env).1.db = s.db) := by
  refine ⟨?_, ?_, fun hv => ?_⟩
  · unfold step; rw [hopen]; simp
  · unfold step; rw [hopen]; simp
  · unfold step; rw [hopen]; simp [hv]

theorem C7_malformed_frame_handling_witness :
    step demoVerify sAuthedA 0 .invalid env0 =
      (sAuthedA, [.sent 0 (.error "Invalid message format")]) ∧
    step demoVerify sAuthedA 0 (.other "ping") env0 = (sAuthedA, []) ∧
    (step demoVerify sAuthedA 0 (.auth none) env0).2 =
      [.sent 0 .authFailed] :=
  ⟨(C7_malformed_frame_handling demoVerify sAuthedA 0 env0 "ping"
      (by decide)).1,
   (C7_malformed_frame_handling demoVerify sAuthedA 0 env0 "ping"
      (by decide)).2.1,
   ((C7_malformed_frame_handling demoVerify sAuthedA 0 env0 "ping"
      (by decide)).2.2 (by decide)).1⟩

/-- C7 counterexample: a frame with the unrecognized type tag "ping" on an
open, authenticated connection yields NO outgoing frame at all — the claim
that the server sends an error frame back for an unrecognized type tag is
false (the connection does remain open and the handler does not crash). -/
theorem C7_counterexample :
    (step demoVerify sAuthedA 0 (.other "ping") env0).2 = [] ∧
    (step demoVerify sAuthedA 0 (.other "ping") env0).1 = sAuthedA := by
  decide

/-- C6: on an open connection, a verified auth frame binds the connection to
the returned identity (overwriting any prior registry entry for that
identity, whose connection is NOT closed: the closed set is unchanged) and
emits the success status; a failed verification emits the failed status and
closes the connection, and no frame of any kind is processed on a closed
connection. -/
theorem C6_auth_frame_semantics
    (verify : Option String → Option TokenPayload) (s : SysState)
    (c : ConnId) (tok : Option String) (env : FrameEnv)
    (hopen : s.closed.contains c = false) :
    (∀ p, verify tok = some p →
       step verify s c (.auth tok) env =
         ({ s with bound := mapSet s.bound c p.userId,
                   registry := mapSet s.registry p.userId c },
          [.sent c .authSuccess]) ∧
       mapGet (mapSet s.registry p.userId c) p.userId = some c) ∧
    (verify tok = none →
       (step verify s c (.auth tok) env).2 = [.sent c .authFailed] ∧
       (step verify s c (.auth tok) env).1.closed = c :: s.closed) ∧
    (∀ s' : SysState, ∀ f' env', s'.closed.contains c = true →
       step verify s' c f' env' = (s', [])) := by
  refine ⟨fun p hp => ?_, fun hv => ?_, fun s' f' env' hc => ?_⟩
  · unfold step
    rw [hopen]
    simp only [Bool.false_eq_true, if_false, hp]
    exact ⟨trivial, mapGet_mapSet_self s.registry p.userId c⟩
  · unfold step
    rw [hopen]
    simp [hv]
  · unfold step
    rw [hc]
    simp

theorem C6_auth_frame_semantics_witness :
    step demoVerify sFresh 3 (.auth (some "tokA")) env0 =
      ({ sFresh with bound := [(3, "A")], registry := [("A", 3)] },
       [.sent 3 .authSuccess]) ∧
    (step demoVerify sFresh 3 (.auth (some "bogus")) env0).2 =
      [.sent 3 .authFailed] ∧
    step demoVerify
      ({ sFresh with closed := [3] }) 3 (.chatMessage "chat-1" "x") env0 =
      ({ sFresh with closed := [3] }, []) :=
  ⟨((C6_auth_frame_semantics demoVerify sFresh 3 (some "tokA") env0
      (by decide)).1 ⟨"A", "buyer"⟩ (by decide)).1,
   ((C6_auth_frame_semantics demoVerify sFresh 3 (some "bogus") env0
      (by decide)).2.1 (by decide)).1,
   (C6_auth_frame_semantics demoVerify sFresh 3 (some "bogus") env0
      (by decide)).2.2 ({ sFresh with closed := [3] })
      (.chatMessage "chat-1" "x") env0 (by decide)⟩

/-- C5: a second successful authentication for the same user does replace
(not duplicate) the entry — after it, lookup returns the new connection and,
given distinct registry keys, exactly one entry for that user exists and the
keys stay distinct.  (The further parts of the claim — no stale entry to a
closed connection, lookup never returning a closed connection — are false;
see the counterexample.) -/
theorem C5_rebind_replaces_entry
    (verify : Option String → Option TokenPayload) (s : SysState)
    (c : ConnId) (tok : Option String) (env : FrameEnv) (p : TokenPayload)
    (hopen : s.closed.contains c = false)
    (hv : verify tok = some p)
    (hnd : keysNodup s.registry) :
    mapGet (step verify s c (.auth tok) env).1.registry p.userId = some c ∧
    keysNodup (step verify s c (.auth tok) env).1.registry ∧
    (step verify s c (.auth tok) env).1.registry.filter
      (fun q => q.1 = p.userId) = [(p.userId, c)] := by
  unfold step
  rw [hopen]
  simp only [Bool.false_eq_true, if_false, hv]
  exact ⟨mapGet_mapSet_self s.registry p.userId c,
         keysNodup_mapSet s.registry p.userId c hnd,
         filter_mapSet_of_nodup s.registry p.userId c hnd⟩

theorem C5_rebind_replaces_entry_witness :
    mapGet (step demoVerify sU1 2 (.auth (some "tokU")) env0).1.registry
      "U" = some 2 ∧
    (step demoVerify sU1 2 (.auth (some "tokU")) env0).1.registry.filter
      (fun q => q.1 = "U") = [("U", 2)] :=
  ⟨(C5_rebind_replaces_entry demoVerify sU1 2 (some "tokU") env0
      ⟨"U", "buyer"⟩ (by decide) (by decide) (by decide)).1,
   (C5_rebind_replaces_entry demoVerify sU1 2 (some "tokU") env0
      ⟨"U", "buyer"⟩ (by decide) (by decide) (by decide)).2.2⟩

/-- C5 counterexample: starting from `sFresh`, connection 1 authenticates as
`U`, then re-authenticates as `V`, then closes.  The close handler deletes
only the last-bound identity `V`, so the registry still holds the entry
`("U", 1)` pointing at the now-closed connection 1, and lookup of `U`
returns that closed connection — refuting both "the registry never holds a
stale entry pointing at a closed connection" and "lookup never returns a
connection known to be closed". -/
theorem C5_counterexample :
    sC5.registry = [("U", 1)] ∧ sC5.closed.contains 1 = true ∧
    mapGet sC5.registry "U" = some 1 := by
  decide

/-- C2: with an authenticated sender on an open connection, a chat_message
naming an unknown conversation, or one whose conversation exists but whose
sender is neither buyer nor seller, leaves the whole state unchanged
(nothing persisted, nothing updated) and sends NOTHING back — the error is
silently dropped, contrary to the claim that it is reported to the sender;
a failing insert is surfaced to the sender as an error frame with nothing
persisted, and a failing `lastMessageAt` update is surfaced as an error
frame after the message row was already inserted. -/
theorem C2_relay_error_semantics
    (verify : Option String → Option TokenPayload) (s : SysState)
    (c : ConnId) (chatId : ChatId) (content : String) (env : FrameEnv)
    (uid : UserId)
    (hopen : s.closed.contains c = false)
    (hb : mapGet s.bound c = some uid) :
    (getChat s.db chatId = none →
       step verify s c (.chatMessage chatId content) env = (s, [])) ∧
    (∀ chat, getChat s.db chatId = some chat →
       ¬(chat.buyerId = uid ∨ chat.sellerId = uid) →
       step verify s c (.chatMessage chatId content) env = (s, [])) ∧
    (∀ chat, getChat s.db chatId = some chat →
       (chat.buyerId = uid ∨ chat.sellerId = uid) →
       env.persistFails = true →
       step verify s c (.chatMessage chatId content) env =
         (s, [.sent c (.error "Invalid message format")])) ∧
    (∀ chat, getChat s.db chatId = some chat →
       (chat.buyerId = uid ∨ chat.sellerId = uid) →
       env.persistFails = false → env.touchFails = true →
       (step verify s c (.chatMessage chatId content) env).2 =
         [.persisted (createMessage s.db chatId uid content).1,
          .sent c (.error "Invalid message format")]) := by
  refine ⟨fun hchat => ?_, fun chat hchat hnp => ?_,
          fun chat hchat hpart hpf => ?_, fun chat hchat hpart hpf htf => ?_⟩
  · unfold step
    rw [hopen]
    simp [hb, hchat]
  · unfold step
    rw [hopen]
    simp only [Bool.false_eq_true, if_false, hb, hchat]
    rw [if_neg hnp]
  · unfold step
    rw [hopen]
    simp only [Bool.false_eq_true, if_false, hb, hchat]
    rw [if_pos hpart, if_pos (by simp [hpf])]
  · unfold step
    rw [hopen]
    simp only [Bool.false_eq_true, if_false, hb, hchat]
    rw [if_pos hpart, if_neg (by simp [hpf]), if_pos (by simp [htf])]

theorem C2_relay_error_semantics_witness :
    step demoVerify sAuthedC 0 (.chatMessage "chat-1" "hi") env0 =
      (sAuthedC, []) ∧
    step demoVerify sAuthedC 0 (.chatMessage "nope" "hi") env0 =
      (sAuthedC, []) ∧
    step demoVerify sAuthedA 0 (.chatMessage "chat-1" "hi")
        { persistFails := true, touchFails := false, tick := 0 } =
      (sAuthedA, [.sent 0 (.error "Invalid message format")]) :=
  ⟨(C2_relay_error_semantics demoVerify sAuthedC 0 "chat-1" "hi" env0 "C"
      (by decide) (by decide)).2.1 chatAB (by decide) (by decide),
   (C2_relay_error_semantics demoVerify sAuthedC 0 "nope" "hi" env0 "C"
      (by decide) (by decide)).1 (by decide),
   (C2_relay_error_semantics demoVerify sAuthedA 0 "chat-1" "hi"
      { persistFails := true, touchFails := false, tick := 0 } "A"
      (by decide) (by decide)).2.2.1 chatAB (by decide) (by decide) rfl⟩

/-- C2 counterexample: sender `C` is authenticated on connection 0 but is
not a participant of `chat-1`; relaying persists nothing and updates
nothing, yet NO error frame (indeed no frame at all) is sent back to the
sender — the claim that the error is reported as an error frame is false. -/
theorem C2_counterexample :
    (step demoVerify sAuthedC 0 (.chatMessage "chat-1" "hi") env0).1 =
      sAuthedC ∧
    (step demoVerify sAuthedC 0 (.chatMessage "chat-1" "hi") env0).2 =
      [] := by
  decide

/-- C1: a relay by an authenticated participant persists exactly one message
record — with that conversation id, the sender's id, the given body,
read=false, created at the insert-time clock — but the conversation's
`lastMessageAt` is then set to the wall-clock time of the separate update
call (`new Date()` in `updateChatLastMessage`), i.e. the message's creation
time plus however much time elapsed in between: at least, and not in
general equal to, the persisted message's creation timestamp. -/
theorem C1_relay_persists_one_message
    (verify : Option String → Option TokenPayload) (s : SysState)
    (c : ConnId) (chatId : ChatId) (content : String) (env : FrameEnv)
    (uid : UserId) (chat : Chat)
    (hopen : s.closed.contains c = false)
    (hb : mapGet s.bound c = some uid)
    (hchat : getChat s.db chatId = some chat)
    (hpart : chat.buyerId = uid ∨ chat.sellerId = uid)
    (hpf : env.persistFails = false) (htf : env.touchFails = false) :
    (step verify s c (.chatMessage chatId content) env).1.db.messages =
      s.db.messages ++ [(createMessage s.db chatId uid content).1] ∧
    (createMessage s.db chatId uid content).1.chatId = chatId ∧
    (createMessage s.db chatId uid content).1.senderId = uid ∧
    (createMessage s.db chatId uid content).1.message = content ∧
    (createMessage s.db chatId uid content).1.isRead = false ∧
    (createMessage s.db chatId uid content).1.createdAt = s.db.now ∧
    getChat (step verify s c (.chatMessage chatId content) env).1.db chatId =
      some { chat with
             lastMessageAt :=
               some ((createMessage s.db chatId uid content).1.createdAt +
                 env.tick) } := by
  unfold step
  rw [hopen]
  simp only [Bool.false_eq_true, if_false, hb, hchat]
  rw [if_pos hpart, if_neg (by simp [hpf]), if_neg (by simp [htf])]
  refine ⟨?_, rfl, rfl, rfl, rfl, rfl, ?_⟩
  · simp [createMessage, updateChatLastMessage]
  · have h2 : getChat
        { (createMessage s.db chatId uid content).2 with
          now := (createMessage s.db chatId uid content).2.now + env.tick }
        chatId = some chat := by
      simpa [getChat, createMessage] using hchat
    have h3 := getChat_updateChatLastMessage _ chatId chat h2
    simpa [createMessage] using h3

theorem C1_relay_persists_one_message_witness :
    (step demoVerify sAuthedA 0 (.chatMessage "chat-1" "hello")
        envTick1).1.db.messages = [msgHello] ∧
    getChat (step demoVerify sAuthedA 0 (.chatMessage "chat-1" "hello")
        envTick1).1.db "chat-1" =
      some { chatAB with lastMessageAt := some (msgHello.createdAt + 1) } :=
  ⟨(C1_relay_persists_one_message demoVerify sAuthedA 0 "chat-1" "hello"
      envTick1 "A" chatAB (by decide) (by decide) (by decide)
      (by decide) rfl rfl).1,
   (C1_relay_persists_one_message demoVerify sAuthedA 0 "chat-1" "hello"
      envTick1 "A" chatAB (by decide) (by decide) (by decide)
      (by decide) rfl rfl).2.2.2.2.2.2⟩

/-- C1 counterexample: participant `A` relays "hello" into `chat-1` and one
clock unit elapses between the insert and the chat update.  Exactly one
message is persisted with creation timestamp 10, but the conversation's
`lastMessageAt` becomes 11, not 10 — the claimed equality between
`lastMessageAt` and the persisted message's creation timestamp is false. -/
theorem C1_counterexample :
    (step demoVerify sAuthedA 0 (.chatMessage "chat-1" "hello")
        envTick1).1.db.messages = [msgHello] ∧
    msgHello.createdAt = 10 ∧
    (getChat (step demoVerify sAuthedA 0 (.chatMessage "chat-1" "hello")
        envTick1).1.db "chat-1").map Chat.lastMessageAt = some (some 11) ∧
    ¬ ((getChat (step demoVerify sAuthedA 0 (.chatMessage "chat-1" "hello")
        envTick1).1.db "chat-1").map Chat.lastMessageAt =
          some (some msgHello.createdAt)) := by
  decide

lemma step_trace_shape (verify : Option String → Option TokenPayload)
    (s : SysState) (c : ConnId) (f : RawFrame) (env : FrameEnv) :
    (step verify s c f env).2 = [] ∨
    (∃ e, (step verify s c f env).2 = [TraceEv.sent c e] ∧
       isPush e = false) ∨
    (∃ m rest, (step verify s c f env).2 = TraceEv.persisted m :: rest ∧
       env.persistFails = false) := by
  unfold step
  by_cases hc : s.closed.contains c = true
  · rw [hc]
    exact Or.inl rfl
  · simp only [Bool.not_eq_true] at hc
    rw [hc]
    simp only [Bool.false_eq_true, if_false]
    rcases f with _ | tok | ⟨chatId, content⟩ | tag
    · exact Or.inr (Or.inl ⟨_, rfl, rfl⟩)
    · rcases hv : verify tok with _ | p
      · simp only [hv]
        exact Or.inr (Or.inl ⟨_, rfl, rfl⟩)
      · simp only [hv]
        exact Or.inr (Or.inl ⟨_, rfl, rfl⟩)
    · rcases hbv : mapGet s.bound c with _ | uid
      · simp only [hbv]
        exact Or.inl trivial
      · simp only [hbv]
        rcases hch : getChat s.db chatId with _ | chat
        · simp only [hch]
          exact Or.inl trivial
        · simp only [hch]
          by_cases hpart : chat.buyerId = uid ∨ chat.sellerId = uid
          · rw [if_pos hpart]
            by_cases hpf : env.persistFails = true
            · rw [if_pos hpf]
              exact Or.inr (Or.inl ⟨_, rfl, rfl⟩)
            · rw [if_neg hpf]
              simp only [Bool.not_eq_true] at hpf
              by_cases htf : env.touchFails = true
              · rw [if_pos htf]
                exact Or.inr (Or.inr ⟨_, _, rfl, hpf⟩)
              · rw [if_neg htf]
                exact Or.inr (Or.inr ⟨_, _, rfl, hpf⟩)
          · rw [if_neg hpart]
            exact Or.inl rfl
    · exact Or.inl rfl

/-- C3: in every handler invocation, a `new_message` or `message_sent` push
appears in the trace only if the very first event of that trace is the
successful persistence of the message (durability before visibility), and
when the persistence step fails no push of either kind occurs at all. -/
theorem C3_durability_before_visibility
    (verify : Option String → Option TokenPayload) (s : SysState)
    (c : ConnId) (f : RawFrame) (env : FrameEnv) :
    (∀ cc fr, TraceEv.sent cc fr ∈ (step verify s c f env).2 →
       isPush fr = true →
       ∃ m, ((step verify s c f env).2).head? =
         some (TraceEv.persisted m)) ∧
    (env.persistFails = true →
       ∀ cc fr, TraceEv.sent cc fr ∈ (step verify s c f env).2 →
       isPush fr = false) := by
  rcases step_trace_shape verify s c f env with
    h | ⟨e, he, hpe⟩ | ⟨m, rest, hm, hpf⟩
  · refine ⟨fun cc fr hmem _ => ?_, fun _ cc fr hmem => ?_⟩
    · rw [h] at hmem
      exact absurd hmem (List.not_mem_nil _)
    · rw [h] at hmem
      exact absurd hmem (List.not_mem_nil _)
  · refine ⟨fun cc fr hmem hpush => ?_, fun _ cc fr hmem => ?_⟩
    · rw [he] at hmem
      have heq := List.mem_singleton.mp hmem
      injection heq with h1 h2
      rw [h2, hpe] at hpush
      exact absurd hpush (by simp)
    · rw [he] at hmem
      have heq := List.mem_singleton.mp hmem
      injection heq with h1 h2
      rw [h2, hpe]
  · refine ⟨fun cc fr _ _ => ⟨m, by rw [hm]; rfl⟩, fun hpf2 => ?_⟩
    exact absurd hpf2 (by simp [hpf])

theorem C3_durability_before_visibility_witness :
    ∃ m, ((step demoVerify sAuthedA 0 (.chatMessage "chat-1" "hello")
      env0).2).head? = some (TraceEv.persisted m) :=
  (C3_durability_before_visibility demoVerify sAuthedA 0
      (.chatMessage "chat-1" "hello") env0).1 0 (.messageSent msgHello)
    (by decide) (by decide)

/-- C8: when the recipient (the conversation participant that is not the
sender) has no registry entry, or an entry pointing at a closed connection,
a successful relay still persists the message, stamps the conversation, and
sends exactly one frame: the `message_sent` confirmation to the sender —
no error is raised and no delivery is attempted to the absent recipient. -/
theorem C8_offline_recipient_relay
    (verify : Option String → Option TokenPayload) (s : SysState)
    (c : ConnId) (chatId : ChatId) (content : String) (env : FrameEnv)
    (uid : UserId) (chat : Chat)
    (hopen : s.closed.contains c = false)
    (hb : mapGet s.bound c = some uid)
    (hchat : getChat s.db chatId = some chat)
    (hpart : chat.buyerId = uid ∨ chat.sellerId = uid)
    (hpf : env.persistFails = false) (htf : env.touchFails = false)
    (hrecv : mapGet s.registry
        (if chat.buyerId = uid then chat.sellerId else chat.buyerId) =
          none ∨
      ∃ oc, mapGet s.registry
          (if chat.buyerId = uid then chat.sellerId else chat.buyerId) =
            some oc ∧ s.closed.contains oc = true) :
    (step verify s c (.chatMessage chatId content) env).1.db.messages =
      s.db.messages ++ [(createMessage s.db chatId uid content).1] ∧
    (step verify s c (.chatMessage chatId content) env).2 =
      [.persisted (createMessage s.db chatId uid content).1,
       .touched chatId (s.db.now + env.tick),
       .sent c (.messageSent (createMessage s.db chatId uid content).1)] := by
  unfold step
  rw [hopen]
  simp only [Bool.false_eq_true, if_false, hb, hchat]
  rw [if_pos hpart, if_neg (by simp [hpf]), if_neg (by simp [htf])]
  constructor
  · simp [createMessage, updateChatLastMessage]
  · rcases hrecv with hnone | ⟨oc, hoc, hclosed⟩
    · simp only [hnone]
      simp [createMessage]
    · simp only [hoc, hclosed]
      simp [createMessage]

theorem C8_offline_recipient_relay_witness :
    (step demoVerify sAuthedA 0 (.chatMessage "chat-1" "hello")
        env0).1.db.messages = [msgHello] ∧
    (step demoVerify sAuthedA 0 (.chatMessage "chat-1" "hello") env0).2 =
      [.persisted msgHello, .touched "chat-1" 10,
       .sent 0 (.messageSent msgHello)] :=
  ⟨(C8_offline_recipient_relay demoVerify sAuthedA 0 "chat-1" "hello" env0
      "A" chatAB (by decide) (by decide) (by decide) (by decide) rfl rfl
      (Or.inl (by decide))).1,
   (C8_offline_recipient_relay demoVerify sAuthedA 0 "chat-1" "hello" env0
      "A" chatAB (by decide) (by decide) (by decide) (by decide) rfl rfl
      (Or.inl (by decide))).2⟩
